import Mathlib

/- Shallow embedding of the IRA grid-impact analysis scripts
   (analyze_single_home.py and app.py).  Real-valued pandas data is modelled
   over the rationals; a pandas NaN (a missing reading) is modelled as
   Option.none.  Each definition mirrors one expression of the Python source. -/

/-- Python int() applied to a number truncates toward zero.  Mirrors
int(total_gas_homes * (adoption_rate / 100)) in app.py line 108. -/
def pyInt (q : ℚ) : ℤ := if 0 ≤ q then ⌊q⌋ else -⌊-q⌋

/-- COP = 3.0 in analyze_single_home.py line 109: efficiency of the new heat pump. -/
def COP : ℚ := 3

/-- Division of a pandas column by a scalar propagates NaN.  Mirrors
df_ts['hp_added_load'] = df_ts['out.natural_gas.heating.energy_consumption'] / COP
(analyze_single_home.py line 112). -/
def hp_added_load (cop : ℚ) (gas : List (Option ℚ)) : List (Option ℚ) :=
  gas.map (fun g => g.map (fun x => x / cop))

/-- Pointwise addition of two aligned pandas columns; a missing operand makes
the result missing (NaN propagation). -/
def nanAdd : Option ℚ → Option ℚ → Option ℚ
  | some a, some b => some (a + b)
  | _, _ => none

/-- df_ts['total_load_after'] = electricity column + hp_added_load column
(analyze_single_home.py line 113). -/
def total_load_after (elec added : List (Option ℚ)) : List (Option ℚ) :=
  List.zipWith nanAdd elec added

/-- The stress-test simulation of analyze_single_home.py lines 109-113: the
derived hp_added_load and total_load_after columns.  The source performs no
validation of cop or of the channel values. -/
def simulate (cop : ℚ) (elec gas : List (Option ℚ)) :
    List (Option ℚ) × List (Option ℚ) :=
  (hp_added_load cop gas, total_load_after elec (hp_added_load cop gas))

/-- num_converts = int(total_gas_homes * (adoption_rate / 100)) (app.py line
108); the argument adoption_fraction stands for adoption_rate / 100. -/
def num_converts (total_gas_homes : ℕ) (adoption_fraction : ℚ) : ℤ :=
  pyInt (total_gas_homes * adoption_fraction)

/-- baseline_curve = (electricity column * total_gas_homes) / 1000 (app.py
line 115); the kWh-to-MWh divisor 1000 is kept as the parameter scale. -/
def baseline_curve (elec : List ℚ) (total_gas_homes : ℕ) (scale : ℚ) : List ℚ :=
  elec.map (fun x => x * total_gas_homes / scale)

/-- added_curve = (hp_added_load column * num_converts) / 1000 (app.py line 119). -/
def added_curve (hp_added : List ℚ) (n : ℤ) (scale : ℚ) : List ℚ :=
  hp_added.map (fun x => x * n / scale)

/-- new_total_curve = baseline_curve + added_curve (app.py line 122). -/
def new_total_curve (elec hp_added : List ℚ) (total_gas_homes : ℕ)
    (adoption_fraction scale : ℚ) : List ℚ :=
  List.zipWith (· + ·) (baseline_curve elec total_gas_homes scale)
    (added_curve hp_added (num_converts total_gas_homes adoption_fraction) scale)

/-- pandas Series.max() over a column of rationals: the maximum of a nonempty
list.  On an empty series pandas yields NaN; the default 0 of the empty case
is only a placeholder and every peak theorem that needs it carries a
nonemptiness hypothesis. -/
def series_max : List ℚ → ℚ
  | [] => 0
  | x :: xs => xs.foldl max x

/-- old_peak = baseline_curve.max() (app.py line 125). -/
def old_peak (elec : List ℚ) (total_gas_homes : ℕ) (scale : ℚ) : ℚ :=
  series_max (baseline_curve elec total_gas_homes scale)

/-- new_peak = new_total_curve.max() (app.py line 126). -/
def new_peak (elec hp_added : List ℚ) (total_gas_homes : ℕ)
    (adoption_fraction scale : ℚ) : ℚ :=
  series_max (new_total_curve elec hp_added total_gas_homes adoption_fraction scale)

/-- peak_growth = new_peak - old_peak (app.py line 127). -/
def peak_growth (old_pk new_pk : ℚ) : ℚ := new_pk - old_pk

/-- pct_increase = (peak_growth / old_peak) * 100 if old_peak > 0 else 0
(app.py line 128). -/
def pct_increase (old_pk new_pk : ℚ) : ℚ :=
  if old_pk > 0 then peak_growth old_pk new_pk / old_pk * 100 else 0

/-- Read-only view of the remote filesystem used by the path resolver: the
fs.exists probe and the fs.ls listing of s3fs. -/
structure RemoteFS where
  pathExists : String → Bool
  ls : String → List String

/-- Option A of get_correct_timeseries_path: root/state=ABBR/upgrade=0
(analyze_single_home.py line 17). -/
def path_a (root_path state_abbr : String) : String :=
  root_path ++ "/state=" ++ state_abbr ++ "/upgrade=0"

/-- Option B of get_correct_timeseries_path: root/upgrade=0/state=ABBR
(analyze_single_home.py line 19). -/
def path_b (root_path state_abbr : String) : String :=
  root_path ++ "/upgrade=0/state=" ++ state_abbr

/-- get_correct_timeseries_path (analyze_single_home.py lines 12-29): probes
option A, then option B, returning the first that exists; none models the
Python return None taken when neither exists. -/
def get_correct_timeseries_path (fs : RemoteFS) (root_path state_abbr : String) :
    Option String :=
  if fs.pathExists (path_a root_path state_abbr) then some (path_a root_path state_abbr)
  else if fs.pathExists (path_b root_path state_abbr) then some (path_b root_path state_abbr)
  else none

/-- The diagnostic printed on the failure branch of get_correct_timeseries_path
(analyze_single_home.py lines 27-28): the message text and the first five
entries of the root directory listing. -/
def resolution_diagnostic (fs : RemoteFS) (root_path : String) : String × List String :=
  ("⚠️ Could not find standard path. Listing " ++ root_path ++ ":",
    (fs.ls root_path).take 5)

/-- Substring containment, as a scan over character lists: the semantics of
pandas str.contains applied with a regex that is a plain alternation of
literals, tested here for one literal. -/
def strContains (hay needle : List Char) : Bool :=
  (List.range (hay.length + 1)).any (fun i => needle.isPrefixOf (hay.drop i))

/-- Lower-casing both sides realises case=False matching. -/
def lowerStr (s : String) : List Char := s.toList.map Char.toLower

/-- One metadata row, restricted to the fields the filters read.  A pandas NaN
in a text field is none. -/
structure Building where
  heating_fuel : Option String
  income : Option String
deriving DecidableEq

/-- county_homes[heat_col].str.contains('Gas|Propane', case=False, na=False)
(app.py line 100): a missing fuel label never matches (na=False). -/
def is_gas_home (b : Building) : Bool :=
  match b.heating_fuel with
  | none => false
  | some s => strContains (lowerStr s) "gas".toList || strContains (lowerStr s) "propane".toList

/-- gas_homes = county_homes[fuel matches] (app.py line 100): the addressable
gas-heated subset. -/
def gas_homes (county_homes : List Building) : List Building :=
  county_homes.filter is_gas_home

/-- gas_homes['in.income'].str.contains('100|200', regex=True, na=False)
(app.py line 181): a missing income label never matches (na=False). -/
def is_high_income (b : Building) : Bool :=
  match b.income with
  | none => false
  | some s => strContains s.toList "100".toList || strContains s.toList "200".toList

/-- Which user-visible message accompanied the high-priority table: st.success
(filtered), st.info plus fallback (empty filter result), or st.warning plus
fallback (no income column). -/
inductive RiskMode where
  | filtered
  | fallbackEmptyFilter
  | fallbackNoIncomeColumn
deriving DecidableEq

/-- The high-priority selection of app.py lines 176-191: if the income column
exists, filter the gas subset on income; when that filter result is empty fall
back to the whole gas subset; if the column is absent, fall back directly. -/
def high_risk (hasIncomeColumn : Bool) (gas : List Building) :
    List Building × RiskMode :=
  if hasIncomeColumn then
    let hr := gas.filter is_high_income
    if hr.isEmpty then (gas, RiskMode.fallbackEmptyFilter)
    else (hr, RiskMode.filtered)
  else (gas, RiskMode.fallbackNoIncomeColumn)

example : strContains (lowerStr "Natural Gas") "gas".toList = true := by decide
example : is_gas_home ⟨some "Propane Standard", none⟩ = true := by decide
example : is_gas_home ⟨some "Electricity", none⟩ = false := by decide
example : is_high_income ⟨some "Natural Gas", some "60000-69999"⟩ = false := by decide
example : is_high_income ⟨some "Natural Gas", some "100000-119999"⟩ = true := by decide

/-- pyInt agrees with the integer floor on non-negative arguments. -/
lemma pyInt_of_nonneg {q : ℚ} (h : 0 ≤ q) : pyInt q = ⌊q⌋ := if_pos h

/-- Claim C2: for every input interval series, at every timestamp where both
readings are present, the simulation yields added_load = gas / COP and
total_load_after = electricity + added_load (hence electricity + gas / COP),
with COP the fixed positive constant 3.0. -/
theorem C2_conservation (elec gas : List (Option ℚ)) (t : ℕ) (e g : ℚ)
    (he : elec[t]? = some (some e)) (hg : gas[t]? = some (some g)) :
    (simulate COP elec gas).1[t]? = some (some (g / COP)) ∧
    (simulate COP elec gas).2[t]? = some (some (e + g / COP)) ∧
    (0 : ℚ) < COP := by
  refine ⟨?_, ?_, by norm_num [COP]⟩
  · simp [simulate, hp_added_load, List.getElem?_map, hg]
  · simp [simulate, total_load_after, hp_added_load, List.getElem?_zipWith',
      List.getElem?_map, he, hg, nanAdd]

theorem C2_conservation_witness :
    (simulate COP [some 1] [some 3]).1[0]? = some (some (3 / COP)) ∧
    (simulate COP [some 1] [some 3]).2[0]? = some (some (1 + 3 / COP)) ∧
    (0 : ℚ) < COP :=
  C2_conservation [some 1] [some 3] 0 1 3 rfl rfl

/-- Claim C3: the concrete scenario example: electricity [1, 2], gas heating
[3, 0], cop 3, subset_count 100, adoption_fraction 0.5, unit_scale 1000 gives
added_load [1, 0], convert_count 50, baseline [0.1, 0.2], projected
[0.15, 0.2], peak_before 0.2, peak_after 0.2, absolute growth 0 and
percentage growth 0. -/
theorem C3_scenario_example :
    (simulate 3 [some 1, some 2] [some 3, some 0]).1 = [some 1, some 0] ∧
    num_converts 100 (1/2) = 50 ∧
    baseline_curve [1, 2] 100 1000 = [0.1, 0.2] ∧
    new_total_curve [1, 2] [1, 0] 100 (1/2) 1000 = [0.15, 0.2] ∧
    old_peak [1, 2] 100 1000 = 0.2 ∧
    new_peak [1, 2] [1, 0] 100 (1/2) 1000 = 0.2 ∧
    peak_growth (old_peak [1, 2] 100 1000)
      (new_peak [1, 2] [1, 0] 100 (1/2) 1000) = 0 ∧
    pct_increase (old_peak [1, 2] 100 1000)
      (new_peak [1, 2] [1, 0] 100 (1/2) 1000) = 0 := by
  norm_num [simulate, hp_added_load, total_load_after, num_converts, pyInt,
    baseline_curve, added_curve, new_total_curve, series_max, old_peak, new_peak,
    peak_growth, pct_increase, max_def]

/-- Claim C6: on every aggregation input, a zero peak_before yields a
percentage growth of 0 (total function, no division-by-zero failure), and a
positive peak_before yields 100 * peak_growth / peak_before. -/
theorem C6_division_guard (elec hp : List ℚ) (total : ℕ) (a scale : ℚ) :
    (old_peak elec total scale = 0 →
      pct_increase (old_peak elec total scale) (new_peak elec hp total a scale) = 0) ∧
    (0 < old_peak elec total scale →
      pct_increase (old_peak elec total scale) (new_peak elec hp total a scale) =
        100 * peak_growth (old_peak elec total scale)
            (new_peak elec hp total a scale) / old_peak elec total scale) := by
  constructor
  · intro h
    rw [h]
    simp [pct_increase]
  · intro h
    rw [pct_increase, if_pos h]
    ring

theorem C6_division_guard_witness :
    pct_increase (old_peak [0] 7 1000) (new_peak [0] [0] 7 1 1000) = 0 ∧
    pct_increase (old_peak [1] 100 1000) (new_peak [1] [1] 100 1 1000) =
      100 * peak_growth (old_peak [1] 100 1000) (new_peak [1] [1] 100 1 1000) /
        old_peak [1] 100 1000 :=
  ⟨(C6_division_guard [0] [0] 7 1 1000).1
      (by norm_num [old_peak, baseline_curve, series_max]),
   (C6_division_guard [1] [1] 100 1 1000).2
      (by norm_num [old_peak, baseline_curve, series_max])⟩

/-- The gas-home predicate, unfolded to the text condition it implements. -/
lemma is_gas_home_iff (b : Building) :
    is_gas_home b = true ↔ ∃ s, b.heating_fuel = some s ∧
      (strContains (lowerStr s) "gas".toList = true ∨
       strContains (lowerStr s) "propane".toList = true) := by
  cases h : b.heating_fuel <;> simp [is_gas_home, h]

/-- Claim C8: a building of the selected population is in the addressable
gas-heated subset exactly when its heating-fuel text, lower-cased, contains
the substring gas or the substring propane; a missing label never qualifies. -/
theorem C8_gas_filter (county_homes : List Building) (b : Building) :
    b ∈ gas_homes county_homes ↔
      b ∈ county_homes ∧ ∃ s, b.heating_fuel = some s ∧
        (strContains (lowerStr s) "gas".toList = true ∨
         strContains (lowerStr s) "propane".toList = true) := by
  rw [gas_homes, List.mem_filter, is_gas_home_iff]

/-- Claim C1: the aggregation computes convert_count as the floor of
subset_count * adoption_fraction, the baseline curve pointwise as
electricity * subset_count / unit_scale, and the projected curve pointwise as
baseline + added_load * convert_count / unit_scale. -/
theorem C1_aggregation (elec hp : List ℚ) (total : ℕ) (a scale : ℚ) (t : ℕ)
    (ha0 : 0 ≤ a) (_ha1 : a ≤ 1) (_hs : 0 < scale) :
    num_converts total a = ⌊(total : ℚ) * a⌋ ∧
    (baseline_curve elec total scale)[t]? =
      (elec[t]?).map (fun x => x * total / scale) ∧
    (∀ b x : ℚ, (baseline_curve elec total scale)[t]? = some b → hp[t]? = some x →
      (new_total_curve elec hp total a scale)[t]? =
        some (b + x * (num_converts total a) / scale)) := by
  refine ⟨pyInt_of_nonneg (mul_nonneg (Nat.cast_nonneg total) ha0), ?_, ?_⟩
  · exact List.getElem?_map _ elec t
  · intro b x hb hx
    simp [new_total_curve, List.getElem?_zipWith', hb, added_curve,
      List.getElem?_map, hx]

theorem C1_aggregation_witness :
    num_converts 100 (1/2) = ⌊((100 : ℕ) : ℚ) * (1/2)⌋ ∧
    (baseline_curve [1, 2] 100 1000)[0]? =
      ((([1, 2] : List ℚ))[0]?).map (fun x : ℚ => x * (100 : ℕ) / 1000) ∧
    (new_total_curve [1, 2] [1, 0] 100 (1/2) 1000)[0]? =
      some ((1/10 : ℚ) + 1 * (num_converts 100 (1/2) : ℤ) / 1000) := by
  obtain ⟨h1, h2, h3⟩ := C1_aggregation [1, 2] [1, 0] 100 (1/2) 1000 0
    (by norm_num) (by norm_num) (by norm_num)
  exact ⟨h1, h2, h3 (1/10) 1 (by norm_num [baseline_curve]) rfl⟩

/-- nanAdd never recovers from a missing right operand. -/
lemma nanAdd_none (o : Option ℚ) : nanAdd o none = none := by cases o <;> rfl

/-- Claim C4 counterexample: with negative channel readings the simulation
returns a definite numeric result instead of failing, and with a missing gas
reading it returns missing outputs instead of failing. -/
theorem C4_counterexample :
    simulate 3 [some (-1)] [some (-3)] = ([some (-1)], [some (-2)]) ∧
    simulate 3 [some 1] [none] = ([none], [none]) := by
  norm_num [simulate, hp_added_load, total_load_after, nanAdd]

/-- Claim C4 (amended): the simulation validates nothing and never fails: on
every input, valid or not, it produces added_load = gas / cop pointwise, and a
missing gas-heating reading propagates to a missing added_load and a missing
total_load_after at that timestamp: missing, never zero, never a failure. -/
theorem C4_no_validation (cop : ℚ) (elec gas : List (Option ℚ)) (t : ℕ) :
    (simulate cop elec gas).1 = gas.map (fun g => g.map fun x => x / cop) ∧
    (gas[t]? = some none → (simulate cop elec gas).1[t]? = some none) ∧
    (t < elec.length → gas[t]? = some none →
      (simulate cop elec gas).2[t]? = some none) := by
  refine ⟨rfl, ?_, ?_⟩
  · intro hg
    simp [simulate, hp_added_load, List.getElem?_map, hg]
  · intro ht hg
    have he : elec[t]? = some elec[t] := List.getElem?_eq_getElem ht
    simp [simulate, total_load_after, hp_added_load, List.getElem?_zipWith', he, hg,
      List.getElem?_map, nanAdd_none]

theorem C4_no_validation_witness :
    (simulate 3 [some 1] [none]).1 = [none] ∧
    (simulate 3 [some 1] [none]).1[0]? = some none ∧
    (simulate 3 [some 1] [none]).2[0]? = some none := by
  obtain ⟨h1, h2, h3⟩ := C4_no_validation 3 [some 1] [none] 0
  exact ⟨by simpa using h1, h2 rfl, h3 (by norm_num) rfl⟩

/-- Folding max over pointwise-dominated lists from dominated seeds preserves
domination. -/
lemma foldl_max_mono {l1 l2 : List ℚ} (h : List.Forall₂ (· ≤ ·) l1 l2) :
    ∀ {a b : ℚ}, a ≤ b → l1.foldl max a ≤ l2.foldl max b := by
  induction h with
  | nil => intro a b hab; simpa using hab
  | cons hx _ ih =>
    intro a b hab
    simp only [List.foldl_cons]
    exact ih (max_le_max hab hx)

/-- series_max is monotone with respect to pointwise domination. -/
lemma series_max_mono {l1 l2 : List ℚ} (h : List.Forall₂ (· ≤ ·) l1 l2) :
    series_max l1 ≤ series_max l2 := by
  cases h with
  | nil => exact le_refl 0
  | cons hx hl => exact foldl_max_mono hl hx

/-- Adding pointwise-dominated mapped columns to a common baseline gives
pointwise-dominated totals. -/
lemma zipWith_add_map_le (B hp : List ℚ) (f1 f2 : ℚ → ℚ)
    (h : ∀ x ∈ hp, f1 x ≤ f2 x) :
    List.Forall₂ (· ≤ ·) (List.zipWith (· + ·) B (hp.map f1))
      (List.zipWith (· + ·) B (hp.map f2)) := by
  induction B generalizing hp with
  | nil => constructor
  | cons b B ih =>
    cases hp with
    | nil => constructor
    | cons x hp =>
      simp only [List.map_cons, List.zipWith_cons_cons]
      exact List.Forall₂.cons (add_le_add_left (h x (List.mem_cons_self x hp)) b)
        (ih hp fun y hy => h y (List.mem_cons_of_mem x hy))

/-- num_converts is monotone in the adoption fraction over non-negative
fractions. -/
lemma num_converts_mono (total : ℕ) {a1 a2 : ℚ} (h0 : 0 ≤ a1) (h : a1 ≤ a2) :
    num_converts total a1 ≤ num_converts total a2 := by
  unfold num_converts
  rw [pyInt_of_nonneg (mul_nonneg (Nat.cast_nonneg total) h0),
    pyInt_of_nonneg (mul_nonneg (Nat.cast_nonneg total) (h0.trans h))]
  exact Int.floor_le_floor (mul_le_mul_of_nonneg_left h (Nat.cast_nonneg total))

/-- Claim C5: with a pointwise non-negative added-load column and
subset_count and unit_scale fixed, raising the adoption fraction never lowers
the projected peak. -/
theorem C5_peak_monotone (elec hp : List ℚ) (total : ℕ) (a1 a2 scale : ℚ)
    (hhp : ∀ x ∈ hp, 0 ≤ x) (h0 : 0 ≤ a1) (h12 : a1 ≤ a2) (_h21 : a2 ≤ 1)
    (hs : 0 < scale) :
    new_peak elec hp total a1 scale ≤ new_peak elec hp total a2 scale := by
  have hn : num_converts total a1 ≤ num_converts total a2 :=
    num_converts_mono total h0 h12
  unfold new_peak new_total_curve added_curve
  apply series_max_mono
  apply zipWith_add_map_le
  intro x hx
  have hxx := hhp x hx
  have hnq : ((num_converts total a1 : ℤ) : ℚ) ≤ ((num_converts total a2 : ℤ) : ℚ) := by
    exact_mod_cast hn
  gcongr

theorem C5_peak_monotone_witness :
    new_peak [1] [1] 100 0 1000 ≤ new_peak [1] [1] 100 1 1000 :=
  C5_peak_monotone [1] [1] 100 0 1 1000
    (by intro x hx; simp at hx; simp [hx]) (by norm_num) (by norm_num)
    (by norm_num) (by norm_num)

/-- Claim C7 counterexample: with a filesystem in which neither candidate
exists and an empty root listing, the resolver yields the failure value none,
yet neither attempted variant appears anywhere in the failure diagnostic: the
diagnostic names only the root and a listing sample. -/
theorem C7_counterexample :
    get_correct_timeseries_path ⟨fun _ => false, fun _ => []⟩ "root" "SC" = none ∧
    (resolution_diagnostic ⟨fun _ => false, fun _ => []⟩ "root").2 = [] ∧
    strContains (resolution_diagnostic ⟨fun _ => false, fun _ => []⟩ "root").1.toList
      (path_a "root" "SC").toList = false ∧
    strContains (resolution_diagnostic ⟨fun _ => false, fun _ => []⟩ "root").1.toList
      (path_b "root" "SC").toList = false := by
  decide

/-- Claim C7 (amended): the resolver probes the state-first variant, then the
upgrade-first variant, and returns the first that exists; when neither exists
it yields the failure value none (which the caller treats as fatal) and the
failure diagnostic carries the root and the first five entries of the root
listing, not the attempted variants. -/
theorem C7_resolver (fs : RemoteFS) (root_path state_abbr : String) :
    (fs.pathExists (path_a root_path state_abbr) = true →
      get_correct_timeseries_path fs root_path state_abbr =
        some (path_a root_path state_abbr)) ∧
    (fs.pathExists (path_a root_path state_abbr) = false →
      fs.pathExists (path_b root_path state_abbr) = true →
      get_correct_timeseries_path fs root_path state_abbr =
        some (path_b root_path state_abbr)) ∧
    (fs.pathExists (path_a root_path state_abbr) = false →
      fs.pathExists (path_b root_path state_abbr) = false →
      get_correct_timeseries_path fs root_path state_abbr = none ∧
      (resolution_diagnostic fs root_path).2 = (fs.ls root_path).take 5) := by
  refine ⟨fun h => ?_, fun h1 h2 => ?_, fun h1 h2 => ⟨?_, rfl⟩⟩
  · simp [get_correct_timeseries_path, h]
  · simp [get_correct_timeseries_path, h1, h2]
  · simp [get_correct_timeseries_path, h1, h2]

theorem C7_resolver_witness :
    get_correct_timeseries_path ⟨fun _ => true, fun _ => []⟩ "r" "SC" =
      some (path_a "r" "SC") ∧
    get_correct_timeseries_path ⟨fun p => p == path_b "r" "SC", fun _ => []⟩ "r" "SC" =
      some (path_b "r" "SC") ∧
    get_correct_timeseries_path ⟨fun _ => false, fun _ => ["entry"]⟩ "r" "SC" = none ∧
    (resolution_diagnostic ⟨fun _ => false, fun _ => ["entry"]⟩ "r").2 =
      (["entry"].take 5) :=
  ⟨(C7_resolver ⟨fun _ => true, fun _ => []⟩ "r" "SC").1 rfl,
   (C7_resolver ⟨fun p => p == path_b "r" "SC", fun _ => []⟩ "r" "SC").2.1
      (by decide) (by decide),
   (C7_resolver ⟨fun _ => false, fun _ => ["entry"]⟩ "r" "SC").2.2 rfl rfl⟩

/-- Claim C9 counterexample: with the income column present and one
gas-heated building whose income text contains neither 100 nor 200, the
high-priority list still contains that building (the empty-filter fallback),
so membership is not equivalent to the income text condition. -/
theorem C9_counterexample :
    is_high_income ⟨some "Natural Gas", some "60000-69999"⟩ = false ∧
    (high_risk true [⟨some "Natural Gas", some "60000-69999"⟩]).1 =
      [⟨some "Natural Gas", some "60000-69999"⟩] := by
  decide

/-- Claim C9 (amended): with the income column absent the high-priority set is
the whole gas-heated subset (same length) in the no-income fallback mode; with
the column present and a nonempty income match the set is exactly the matching
buildings in filtered mode; with the column present and no match it falls back
to the whole gas-heated subset in the empty-filter fallback mode. -/
theorem C9_high_risk_modes (gas : List Building) :
    (high_risk false gas = (gas, RiskMode.fallbackNoIncomeColumn) ∧
      (high_risk false gas).1.length = gas.length) ∧
    (gas.filter is_high_income ≠ [] →
      high_risk true gas = (gas.filter is_high_income, RiskMode.filtered)) ∧
    (gas.filter is_high_income = [] →
      high_risk true gas = (gas, RiskMode.fallbackEmptyFilter)) := by
  refine ⟨⟨rfl, rfl⟩, fun h => ?_, fun h => ?_⟩
  · simp [high_risk, h]
  · simp [high_risk, h]

theorem C9_high_risk_modes_witness :
    high_risk true [⟨some "Gas", some "100000+"⟩] =
      ([⟨some "Gas", some "100000+"⟩].filter is_high_income, RiskMode.filtered) ∧
    high_risk true [⟨some "Gas", some "60000"⟩] =
      ([⟨some "Gas", some "60000"⟩], RiskMode.fallbackEmptyFilter) :=
  ⟨(C9_high_risk_modes [⟨some "Gas", some "100000+"⟩]).2.1 (by decide),
   (C9_high_risk_modes [⟨some "Gas", some "60000"⟩]).2.2 (by decide)⟩

/-- Claim C10: with the income column present but no gas-heated building
matching the income filter, the high-priority list equals the full gas-heated
subset, the same list as in the income-absent mode, and for a non-empty
gas-heated subset the displayed high-priority list is never empty. -/
theorem C10_empty_filter_fallback (gas : List Building) :
    (gas.filter is_high_income = [] →
      (high_risk true gas).1 = gas ∧
      (high_risk true gas).1 = (high_risk false gas).1) ∧
    (gas ≠ [] → (high_risk true gas).1 ≠ []) := by
  constructor
  · intro h
    constructor <;> simp [high_risk, h]
  · intro hne
    by_cases h : gas.filter is_high_income = []
    · simpa [high_risk, h] using hne
    · simp [high_risk, h]

theorem C10_empty_filter_fallback_witness :
    (high_risk true [⟨some "Gas", some "60000"⟩]).1 =
      [⟨some "Gas", some "60000"⟩] ∧
    (high_risk true [⟨some "Gas", some "60000"⟩]).1 =
      (high_risk false [⟨some "Gas", some "60000"⟩]).1 ∧
    (high_risk true [⟨some "Gas", some "60000"⟩]).1 ≠ [] :=
  ⟨((C10_empty_filter_fallback [⟨some "Gas", some "60000"⟩]).1 (by decide)).1,
   ((C10_empty_filter_fallback [⟨some "Gas", some "60000"⟩]).1 (by decide)).2,
   (C10_empty_filter_fallback [⟨some "Gas", some "60000"⟩]).2 (by decide)⟩
